import Mathlib

/-!
Shallow embedding of the F1-HackTx race-telemetry dashboard
(`src/frontend/app/page.tsx` and
`src/frontend/app/components/StrategyRecommendation.tsx`).

The page-level React component owns six pieces of state
(`raceInfo`, `currentLap`, `lapTimeHistory`, `isRaceActive`,
`raceStatus`, `error`); the event handlers `fetchNextLap`,
`startRace` and `toggleRace` are modelled as state transformers,
with the HTTP response an explicit argument of `fetchNextLap`.
JavaScript numbers are modelled as rationals, and `Math.round`
as `jsRound` (floor of x + 1/2, JavaScript rounds halves up).
-/

/-- JavaScript `Math.round`: rounds to the nearest integer, halves toward +infinity. -/
def jsRound (q : ℚ) : ℤ := ⌊q + 1/2⌋

/-- The `ML_Confidence` object of a race snapshot (page.tsx lines 29-33). -/
structure MLConfidence where
  AGGRESSIVE : ℚ
  NEUTRAL : ℚ
  DEFENSIVE : ℚ
deriving DecidableEq, Repr

/-- One `/api/feed` snapshot, the `RaceData` interface of page.tsx (lines 14-35).
`ML_Confidence` is `Option` because the code guards the field with
`currentLap.ML_Confidence || fallback` (absent field). -/
structure RaceData where
  timestamp : String
  current_lap : ℤ
  raw_lap_time : ℚ
  track_temp : ℚ
  rainfall_mm : ℚ
  throttle_percent : ℚ
  current_position : ℤ
  tyre_compound : String
  stint_lap_count : ℤ
  tyre_wear_pct : ℚ
  flag_status : String
  incident_message : String
  delta_message : String
  ML_Recommendation : String
  ML_Confidence : Option MLConfidence
  status : String
deriving DecidableEq, Repr

/-- The `RaceInfo` interface of page.tsx (lines 37-43). -/
structure RaceInfo where
  season : ℤ
  driver : String
  total_laps : ℤ
  emulation_laps : ℤ
  circuit : String
deriving DecidableEq, Repr

/-- The six `useState` cells of the `Dashboard` component (page.tsx lines 47-52). -/
structure DashboardState where
  raceInfo : Option RaceInfo
  currentLap : Option RaceData
  lapTimeHistory : List (ℤ × ℚ)
  isRaceActive : Bool
  raceStatus : String
  error : Option String
deriving DecidableEq, Repr

/-- Outcome of one `fetch('/api/feed')` as observed by `fetchNextLap`:
a parsed 2xx body, a non-2xx HTTP status with its body text, or a
thrown network/parse error. -/
inductive FeedResponse where
  | ok (data : RaceData)
  | httpError (status : Nat) (body : String)
  | networkError (msg : String)
deriving DecidableEq, Repr

/-- `fetchNextLap` (page.tsx lines 82-129) as a state transformer on the
dashboard state, given the feed response. The early return `if (!raceInfo) return`
is the only guard. On a non-ok response: status 410 deactivates the race and
sets the terminal status (no throw, error untouched); any other status throws
`API Error: <status> - <body>` which the catch block records while
deactivating (for 404 the interim `setError` on line 98 is superseded by the
catch on line 126, so only the final message is kept). On a 2xx response the
snapshot replaces `currentLap`, `raceStatus` takes the snapshot's status, the
history is appended to exactly when `raw_lap_time > 0`, and the error is cleared. -/
def fetchNextLap (resp : FeedResponse) (st : DashboardState) : DashboardState :=
  match st.raceInfo with
  | none => st
  | some _ =>
    match resp with
    | .ok data =>
      let st1 := { st with currentLap := some data, raceStatus := data.status }
      let st2 :=
        if data.raw_lap_time > 0 then
          { st1 with lapTimeHistory :=
              st1.lapTimeHistory ++ [(data.current_lap, data.raw_lap_time)] }
        else st1
      { st2 with error := none }
    | .httpError status body =>
      if status = 410 then
        { st with isRaceActive := false, raceStatus := "Race Finished" }
      else
        { st with
            error := some ("API Error: " ++ toString status ++ " - " ++ body),
            isRaceActive := false }
    | .networkError msg =>
      { st with error := some msg, isRaceActive := false }

/-- `startRace` (page.tsx lines 132-145): the `/api/reset` POST only logs on
failure (no state effect), then the four `set` calls on lines 140-143 run.
The trailing `fetchNextLap()` call on line 144 is a separate transition,
modelled by applying `fetchNextLap` to the state this returns. -/
def startRace (st : DashboardState) : DashboardState :=
  { st with
      isRaceActive := true,
      lapTimeHistory := [],
      currentLap := none,
      error := none }

/-- `toggleRace` (page.tsx lines 163-165): `setIsRaceActive(prev => !prev)`. -/
def toggleRace (st : DashboardState) : DashboardState :=
  { st with isRaceActive := !st.isRaceActive }

/-- `celsiusToFahrenheit` (page.tsx lines 159-161): `Math.round((celsius * 9/5) + 32)`. -/
def celsiusToFahrenheit (celsius : ℚ) : ℤ :=
  jsRound (celsius * 9/5 + 32)

/-- `celsiusToFahrenheit` of the earlier page revision (src/unnamed/part_008):
`(celsius * 9/5) + 32`, unrounded. -/
def celsiusToFahrenheitRaw (celsius : ℚ) : ℚ :=
  celsius * 9/5 + 32

/-- The flag classification inside `displayData.flagType` (page.tsx lines
205-224): `incident_message` is read into `incidentMsg` (used only by a
`console.log`); the returned type depends on `flag_status` alone. -/
inductive FlagType where
  | none
  | yellow
  | red
deriving DecidableEq, Repr

/-- `displayData.flagType` (page.tsx lines 205-224) as a function of the
current snapshot. -/
def displayFlagType : Option RaceData → FlagType
  | Option.none => FlagType.none
  | some d =>
    if d.flag_status = "Yellow" ∨ d.flag_status = "Safety Car" then FlagType.yellow
    else if d.flag_status = "Red" then FlagType.red
    else FlagType.none

/-- The view-model slice produced by `displayData.strategyConfidence`
(page.tsx lines 173-195). -/
structure DisplayStrategy where
  aggressive : ℤ
  neutral : ℤ
  defensive : ℤ
  recommended : String
deriving DecidableEq, Repr

/-- `displayData.strategyConfidence` (page.tsx lines 173-195): with no
snapshot the hard-coded 10/60/30 defaults; otherwise each confidence
(falling back to 0.1/0.6/0.3 when `ML_Confidence` is absent) is scaled by
100 and rounded, and `recommended` falls back to `N/A` on an empty
`ML_Recommendation` (JavaScript `||` on a string). The `|| 0` guards inside
`Math.round((x || 0) * 100)` are identities on present numeric fields. -/
def strategyConfidence : Option RaceData → DisplayStrategy
  | Option.none => ⟨10, 60, 30, "N/A"⟩
  | some d =>
    let cs := d.ML_Confidence.getD ⟨1/10, 6/10, 3/10⟩
    ⟨jsRound (cs.AGGRESSIVE * 100),
     jsRound (cs.NEUTRAL * 100),
     jsRound (cs.DEFENSIVE * 100),
     if d.ML_Recommendation = "" then "N/A" else d.ML_Recommendation⟩

/-- The props of `StrategyRecommendation` (StrategyRecommendation.tsx lines 8-13). -/
structure StrategyProps where
  aggressive : ℚ
  neutral : ℚ
  defensive : ℚ
deriving DecidableEq, Repr

/-- The record returned by `findHighestStrategies`. -/
structure HighestFlags where
  aggressive : Bool
  neutral : Bool
  defensive : Bool
deriving DecidableEq, Repr

/-- `findHighestStrategies` (StrategyRecommendation.tsx lines 22-33):
`Math.max` of the three values, then `=== max` per class. -/
def findHighestStrategies (s : StrategyProps) : HighestFlags :=
  let m := max (max s.aggressive s.neutral) s.defensive
  ⟨decide (s.aggressive = m), decide (s.neutral = m), decide (s.defensive = m)⟩

/-! Concrete sample values used by counterexamples and witnesses. -/

/-- A sample `RaceInfo`, as returned by `/api/race/info`. -/
def sampleInfo : RaceInfo :=
  ⟨2024, "Driver", 57, 57, "COTA"⟩

/-- A sample in-race snapshot with a valid lap time. -/
def sampleLapData : RaceData where
  timestamp := "t0"
  current_lap := 1
  raw_lap_time := 90
  track_temp := 30
  rainfall_mm := 0
  throttle_percent := 75
  current_position := 5
  tyre_compound := "SOFT"
  stint_lap_count := 1
  tyre_wear_pct := 2
  flag_status := "Green"
  incident_message := ""
  delta_message := "PUSH"
  ML_Recommendation := "Neutral"
  ML_Confidence := some ⟨1/10, 8/10, 1/10⟩
  status := "Active"

/-- A dashboard state whose metadata has loaded but whose race is inactive. -/
def inactiveState : DashboardState :=
  { raceInfo := some sampleInfo
    currentLap := none
    lapTimeHistory := []
    isRaceActive := false
    raceStatus := "Ready"
    error := none }

/-! Claim theorems. -/

/-- C6: The temperature conversion applied for display maps celsius 37 to
Fahrenheit 98.6, rounded per the display rule (`Math.round` of
`(celsius * 9/5) + 32`): the exact conversion of 37 degrees C is 98.6 degrees F,
the current revision displays its rounding, 99, and the earlier revision
returns the unrounded 98.6. -/
theorem celsius37_displays_rounded_98_6 :
    celsiusToFahrenheitRaw 37 = 98.6
    ∧ celsiusToFahrenheit 37 = jsRound 98.6
    ∧ celsiusToFahrenheit 37 = 99 := by
  norm_num [celsiusToFahrenheitRaw, celsiusToFahrenheit, jsRound]

/-- C7: for every prior state, `startRace` resets the lap-time history to
empty, clears the current snapshot, clears the error state and sets the race
active, while leaving the metadata and the status text as they were. -/
theorem startRace_resets_state (st : DashboardState) :
    (startRace st).lapTimeHistory = []
    ∧ (startRace st).currentLap = none
    ∧ (startRace st).error = none
    ∧ (startRace st).isRaceActive = true
    ∧ (startRace st).raceInfo = st.raceInfo
    ∧ (startRace st).raceStatus = st.raceStatus := by
  simp [startRace]

/-- C8: `toggleRace` negates the `isRaceActive` flag and leaves every other
state field (history, current snapshot, status, error, metadata) unchanged. -/
theorem toggleRace_only_flips_active (st : DashboardState) :
    (toggleRace st).isRaceActive = !st.isRaceActive
    ∧ (toggleRace st).lapTimeHistory = st.lapTimeHistory
    ∧ (toggleRace st).currentLap = st.currentLap
    ∧ (toggleRace st).raceStatus = st.raceStatus
    ∧ (toggleRace st).error = st.error
    ∧ (toggleRace st).raceInfo = st.raceInfo := by
  simp [toggleRace]

/-- C9: `findHighestStrategies` flags a class if and only if its value equals
the maximum of the three values; in particular on a tie such as (3, 3, 1)
both tied maxima are flagged, not just the first. -/
theorem highest_flag_iff_equals_max (s : StrategyProps) :
    ((findHighestStrategies s).aggressive = true
        ↔ s.aggressive = max (max s.aggressive s.neutral) s.defensive)
    ∧ ((findHighestStrategies s).neutral = true
        ↔ s.neutral = max (max s.aggressive s.neutral) s.defensive)
    ∧ ((findHighestStrategies s).defensive = true
        ↔ s.defensive = max (max s.aggressive s.neutral) s.defensive)
    ∧ findHighestStrategies ⟨3, 3, 1⟩ = ⟨true, true, false⟩ := by
  refine ⟨by simp [findHighestStrategies], by simp [findHighestStrategies],
    by simp [findHighestStrategies], ?_⟩
  simp [findHighestStrategies]

/-- C5: the flag classification maps `flag_status = "Yellow"` to yellow,
`"Red"` to red, `"Safety Car"` to yellow, any other value to none, and the
absence of a snapshot to none. -/
theorem flag_classification_cases (d : RaceData) :
    displayFlagType Option.none = FlagType.none
    ∧ (d.flag_status = "Yellow" → displayFlagType (some d) = FlagType.yellow)
    ∧ (d.flag_status = "Safety Car" → displayFlagType (some d) = FlagType.yellow)
    ∧ (d.flag_status = "Red" → displayFlagType (some d) = FlagType.red)
    ∧ (d.flag_status ≠ "Yellow" → d.flag_status ≠ "Safety Car" →
        d.flag_status ≠ "Red" → displayFlagType (some d) = FlagType.none) := by
  refine ⟨rfl, ?_, ?_, ?_, ?_⟩ <;> intros <;> simp_all [displayFlagType]

/-- Witness for C5: a snapshot with `flag_status = "Safety Car"` classifies
as yellow. -/
theorem flag_classification_cases_witness :
    displayFlagType (some { sampleLapData with flag_status := "Safety Car" })
      = FlagType.yellow :=
  (flag_classification_cases { sampleLapData with flag_status := "Safety Car" }).2.2.1 rfl

/-- C10: the computed flag type depends only on the snapshot's `flag_status`
field; two snapshots agreeing on `flag_status` classify identically, whatever
their `incident_message`, `delta_message` or other fields. -/
theorem flagType_depends_only_on_flag_status (d1 d2 : RaceData)
    (h : d1.flag_status = d2.flag_status) :
    displayFlagType (some d1) = displayFlagType (some d2) := by
  simp [displayFlagType, h]

/-- Witness for C10: two snapshots that differ in `incident_message` and
`delta_message` but share `flag_status` classify identically. -/
theorem flagType_depends_only_on_flag_status_witness :
    displayFlagType (some { sampleLapData with incident_message := "CRASH AT TURN 3" })
      = displayFlagType (some { sampleLapData with delta_message := "WARNING" }) :=
  flagType_depends_only_on_flag_status
    { sampleLapData with incident_message := "CRASH AT TURN 3" }
    { sampleLapData with delta_message := "WARNING" } rfl

/-- C3 (as stated): when the feed endpoint answers HTTP 410, `fetchNextLap`
sets `raceStatus` to `"Race Finished"` and `isRaceActive` to `false` and
changes nothing else: the error state is not set (the branch returns before
any throw), and the snapshot and history are untouched. -/
theorem fetch_410_is_normal_termination (st : DashboardState) (info : RaceInfo)
    (body : String) (h : st.raceInfo = some info) :
    fetchNextLap (.httpError 410 body) st
      = { st with isRaceActive := false, raceStatus := "Race Finished" }
    ∧ (fetchNextLap (.httpError 410 body) st).error = st.error := by
  unfold fetchNextLap
  rw [h]
  simp

/-- Witness for C3: HTTP 410 on the ready state finishes the race without
touching the (empty) error. -/
theorem fetch_410_is_normal_termination_witness :
    fetchNextLap (.httpError 410 "Race over") inactiveState
      = { inactiveState with isRaceActive := false, raceStatus := "Race Finished" }
    ∧ (fetchNextLap (.httpError 410 "Race over") inactiveState).error
      = inactiveState.error :=
  fetch_410_is_normal_termination inactiveState sampleInfo "Race over" rfl

/-- C4: ingesting a snapshot with `raw_lap_time <= 0` leaves the lap-time
history unchanged; ingesting one with `raw_lap_time > 0` appends exactly the
entry `(current_lap, raw_lap_time)`, growing the length by one and leaving
every existing entry in place. -/
theorem lap_history_append_rule (st : DashboardState) (info : RaceInfo)
    (data : RaceData) (h : st.raceInfo = some info) :
    (data.raw_lap_time ≤ 0 →
        (fetchNextLap (.ok data) st).lapTimeHistory = st.lapTimeHistory)
    ∧ (0 < data.raw_lap_time →
        (fetchNextLap (.ok data) st).lapTimeHistory
          = st.lapTimeHistory ++ [(data.current_lap, data.raw_lap_time)]
        ∧ (fetchNextLap (.ok data) st).lapTimeHistory.length
          = st.lapTimeHistory.length + 1
        ∧ (fetchNextLap (.ok data) st).lapTimeHistory.take st.lapTimeHistory.length
          = st.lapTimeHistory) := by
  unfold fetchNextLap
  rw [h]
  constructor
  · intro h1
    simp [not_lt.mpr h1]
  · intro h1
    simp [h1, List.take_left]

/-- Witness for C4: ingesting the sample snapshot (lap 1, time 90 > 0) from
the ready state appends the entry `(1, 90)`. -/
theorem lap_history_append_rule_witness :
    (fetchNextLap (.ok sampleLapData) inactiveState).lapTimeHistory
      = inactiveState.lapTimeHistory ++ [(1, 90)] :=
  ((lap_history_append_rule inactiveState sampleInfo sampleLapData rfl).2
    (by norm_num [sampleLapData])).1

/-- Counterexample to C2 as stated: in a state with metadata loaded but the
race inactive, `fetchNextLap` is not a no-op — a successful response still
replaces the snapshot and grows the history, because the only guard in the
code is `if (!raceInfo) return`, not a check of `isRaceActive`. -/
theorem fetch_while_inactive_changes_state :
    inactiveState.isRaceActive = false
    ∧ (fetchNextLap (.ok sampleLapData) inactiveState).lapTimeHistory
        ≠ inactiveState.lapTimeHistory := by
  constructor
  · rfl
  · norm_num [fetchNextLap, inactiveState, sampleLapData]

/-- C2 amended: `fetchNextLap` is a no-op exactly when the race metadata has
not loaded (`raceInfo` is null); that early return is the controller's only
guard, and fetching while merely inactive is instead prevented by the
interval timer not running. -/
theorem fetchNextLap_noop_without_metadata (resp : FeedResponse)
    (st : DashboardState) (h : st.raceInfo = none) :
    fetchNextLap resp st = st := by
  unfold fetchNextLap
  rw [h]

/-- Witness for amended C2: with no metadata, a successful response changes
nothing. -/
theorem fetchNextLap_noop_without_metadata_witness :
    fetchNextLap (.ok sampleLapData) { inactiveState with raceInfo := none }
      = { inactiveState with raceInfo := none } :=
  fetchNextLap_noop_without_metadata (.ok sampleLapData)
    { inactiveState with raceInfo := none } rfl

/-- A confidence triple (0.335, 0.335, 0.33) summing to 1, whose per-class
roundings do not. -/
def skewedConfidence : MLConfidence := ⟨67/200, 67/200, 33/100⟩

/-- A snapshot carrying `skewedConfidence`. -/
def skewedLapData : RaceData :=
  { sampleLapData with ML_Confidence := some skewedConfidence }

/-- Rounding a rational that is an integer is that integer. -/
theorem jsRound_intCast (a : ℤ) : jsRound ((a:ℚ)) = a := by
  unfold jsRound
  rw [Int.floor_int_add]
  norm_num

/-- Counterexample to C1 as stated: the confidences 0.335, 0.335, 0.33 scale
to a total of exactly 100, yet the three displayed percentages
(`Math.round` of each confidence times 100) are 34, 34, 33 and sum to 101. -/
theorem strategy_percent_sum_counterexample :
    (strategyConfidence (some skewedLapData)).aggressive
      + (strategyConfidence (some skewedLapData)).neutral
      + (strategyConfidence (some skewedLapData)).defensive = 101
    ∧ (skewedConfidence.AGGRESSIVE + skewedConfidence.NEUTRAL
        + skewedConfidence.DEFENSIVE) * 100 = 100
    ∧ skewedLapData.ML_Confidence = some skewedConfidence := by
  refine ⟨?_, by norm_num [skewedConfidence], rfl⟩
  norm_num [strategyConfidence, skewedLapData, sampleLapData, skewedConfidence, jsRound]

/-- C1 amended: whenever each confidence scaled by 100 is an integer, the
displayed strategy percentages are exactly those integers and their sum
equals the confidences scaled to 100 (rounding can break this otherwise);
in particular confidences 0.1, 0.8, 0.1 display as 10%, 80%, 10% with
"neutral" the unique class flagged as highest. -/
theorem strategy_percent_sum_integer_case (cs : MLConfidence) (a n dv : ℤ)
    (data : RaceData)
    (ha : cs.AGGRESSIVE * 100 = (a:ℚ)) (hn : cs.NEUTRAL * 100 = (n:ℚ))
    (hd : cs.DEFENSIVE * 100 = (dv:ℚ)) (hc : data.ML_Confidence = some cs) :
    (strategyConfidence (some data)).aggressive = a
    ∧ (strategyConfidence (some data)).neutral = n
    ∧ (strategyConfidence (some data)).defensive = dv
    ∧ (((strategyConfidence (some data)).aggressive
        + (strategyConfidence (some data)).neutral
        + (strategyConfidence (some data)).defensive : ℤ) : ℚ)
        = (cs.AGGRESSIVE + cs.NEUTRAL + cs.DEFENSIVE) * 100
    ∧ strategyConfidence (some sampleLapData) = ⟨10, 80, 10, "Neutral"⟩
    ∧ findHighestStrategies ⟨10, 80, 10⟩ = ⟨false, true, false⟩ := by
  have hA : (strategyConfidence (some data)).aggressive = a := by
    simp [strategyConfidence, hc, ha, jsRound_intCast]
  have hN : (strategyConfidence (some data)).neutral = n := by
    simp [strategyConfidence, hc, hn, jsRound_intCast]
  have hD : (strategyConfidence (some data)).defensive = dv := by
    simp [strategyConfidence, hc, hd, jsRound_intCast]
  refine ⟨hA, hN, hD, ?_, ?_, ?_⟩
  · rw [hA, hN, hD]
    push_cast
    rw [← ha, ← hn, ← hd]
    ring
  · norm_num [strategyConfidence, sampleLapData, jsRound]
    intro h
    simp at h
  · have hmax : max (max (10:ℚ) 80) 10 = 80 := by norm_num
    simp [findHighestStrategies, hmax]
    norm_num

/-- Witness for amended C1: confidences 0.1, 0.8, 0.1 display as 10, 80, 10,
the displayed sum equals the scaled total 100, and neutral is the unique
highest-flagged class. -/
theorem strategy_percent_sum_integer_case_witness :
    (strategyConfidence (some sampleLapData)).aggressive = 10
    ∧ (strategyConfidence (some sampleLapData)).neutral = 80
    ∧ (strategyConfidence (some sampleLapData)).defensive = 10
    ∧ (((strategyConfidence (some sampleLapData)).aggressive
        + (strategyConfidence (some sampleLapData)).neutral
        + (strategyConfidence (some sampleLapData)).defensive : ℤ) : ℚ)
        = ((1:ℚ)/10 + 8/10 + 1/10) * 100
    ∧ strategyConfidence (some sampleLapData) = ⟨10, 80, 10, "Neutral"⟩
    ∧ findHighestStrategies ⟨10, 80, 10⟩ = ⟨false, true, false⟩ :=
  strategy_percent_sum_integer_case ⟨1/10, 8/10, 1/10⟩ 10 80 10 sampleLapData
    (by norm_num) (by norm_num) (by norm_num) rfl
